import Mathlib

/-!
Shallow embedding of the core of the `recommendation-engine` repository
(Rust, crates `models`, `engine`, `service`, `storage`) and proofs about
the claims of its specification.

Conventions of the embedding:
* `f32`/`f64` scores and weights are modelled as exact rationals (`ℚ`)
  where the code performs only field operations, and as reals (`ℝ`)
  where the code takes square roots (`cosine_similarity`,
  `normalize_vector`).
* Rust `HashMap` iteration is modelled by association lists: a list of
  key/value pairs represents one possible iteration order of the map.
* The SQL tables behind `VectorStore` are modelled as lists of rows and
  each query as a pure function over them; `Utc` timestamps are seconds
  since the epoch (`Int`).
* The distributed Redis cache is an association list from string keys to
  cached values, threaded through the functions that read and write it.
-/

deriving instance DecidableEq for Except

namespace RecEngine

/-- Error kinds of `recommendation_models::RecommendationError` that the
embedded code paths can produce. -/
inductive RecommendationError where
  | EntityNotFound (msg : String)
  | InvalidRequest (msg : String)
  | InternalError
  deriving DecidableEq, Repr

/-- `recommendation_models::Algorithm` with hybrid weights as exact
rationals. -/
inductive Algorithm where
  | Collaborative
  | ContentBased
  | Hybrid (collaborative_weight content_weight : ℚ)
  deriving DecidableEq, Repr

/-- `recommendation_models::RecommendationRequest`; `filters` is the
optional string map, modelled as an association list. -/
structure RecommendationRequest where
  user_id : Option String
  entity_id : Option String
  algorithm : Algorithm
  count : Nat
  filters : Option (List (String × String))
  deriving DecidableEq, Repr

/-- `RecommendationService::validate_request`
(`crates/service/src/recommendation.rs`, lines 54-99): checks presence of
`user_id`/`entity_id`, the bounds on `count`, and the hybrid-weight
constraints, in source order. -/
def validate_request (request : RecommendationRequest) :
    Except RecommendationError Unit :=
  if request.user_id = none ∧ request.entity_id = none then
    .error (.InvalidRequest "Either user_id or entity_id must be provided")
  else if request.count = 0 then
    .error (.InvalidRequest "count must be greater than 0")
  else if request.count > 100 then
    .error (.InvalidRequest "count must not exceed 100")
  else
    match request.algorithm with
    | .Hybrid collaborative_weight content_weight =>
      let sum := collaborative_weight + content_weight
      if |sum - 1| > 1/1000 then
        .error (.InvalidRequest ("Hybrid weights must sum to 1.0, got " ++ toString sum))
      else if collaborative_weight < 0 ∨ content_weight < 0 then
        .error (.InvalidRequest "Hybrid weights must be non-negative")
      else
        .ok ()
    | _ => .ok ()

/-- C5: `validate_request` returns `Ok` exactly when at least one of
`user_id`/`entity_id` is present, `count ∈ [1,100]`, and for a hybrid
algorithm the weights are non-negative with `|w_c + w_e − 1| ≤ 10⁻³`;
in particular `count = 0` and `count = 101` are rejected, `count = 100`
is accepted, weights `(0.7, 0.4)` are rejected and `(0.6, 0.4000001)`
are accepted. -/
theorem validate_request_spec :
    (∀ r : RecommendationRequest,
      validate_request r = .ok () ↔
        ((r.user_id ≠ none ∨ r.entity_id ≠ none) ∧ 1 ≤ r.count ∧ r.count ≤ 100 ∧
          ∀ wc we : ℚ, r.algorithm = .Hybrid wc we →
            0 ≤ wc ∧ 0 ≤ we ∧ |wc + we - 1| ≤ 1/1000)) ∧
    validate_request ⟨some "u", none, .Collaborative, 0, none⟩ ≠ .ok () ∧
    validate_request ⟨some "u", none, .Collaborative, 100, none⟩ = .ok () ∧
    validate_request ⟨some "u", none, .Collaborative, 101, none⟩ ≠ .ok () ∧
    validate_request ⟨some "u", none, .Hybrid (7/10) (4/10), 10, none⟩ ≠ .ok () ∧
    validate_request ⟨some "u", none,
      .Hybrid (6/10) (4000001/10000000), 10, none⟩ = .ok () := by
  refine ⟨?_, by simp [validate_request], by simp [validate_request],
    by simp [validate_request], ?_, ?_⟩
  case refine_2 =>
    norm_num [validate_request, lt_abs]
    simp
  case refine_3 =>
    norm_num [validate_request, abs_le]
    simp
    rw [abs_of_nonneg] <;> norm_num
  intro r
  obtain ⟨uid, eid, alg, count, filters⟩ := r
  simp only [validate_request]
  split_ifs with h1 h2 h3
  · simp only [reduceCtorEq, false_iff, not_and]
    intro hids
    exact absurd h1 (by rcases hids with h | h <;> simp_all)
  · simp only [reduceCtorEq, false_iff, not_and]
    intro _ hc
    omega
  · simp only [reduceCtorEq, false_iff, not_and]
    intro _ hc
    omega
  · cases alg with
    | Collaborative =>
      simp only [true_iff]
      refine ⟨?_, by omega, by omega, by intro wc we h; cases h⟩
      by_cases hu : uid = none
      · right
        intro he
        exact h1 ⟨hu, he⟩
      · exact Or.inl hu
    | ContentBased =>
      simp only [true_iff]
      refine ⟨?_, by omega, by omega, by intro wc we h; cases h⟩
      by_cases hu : uid = none
      · right
        intro he
        exact h1 ⟨hu, he⟩
      · exact Or.inl hu
    | Hybrid wc we =>
      simp only []
      split_ifs with h4 h5
      · simp only [reduceCtorEq, false_iff, not_and]
        intro _ _ _ hall
        obtain ⟨_, _, hle⟩ := hall wc we rfl
        exact absurd hle (not_le.mpr h4)
      · simp only [reduceCtorEq, false_iff, not_and]
        intro _ _ _ hall
        obtain ⟨h0c, h0e, _⟩ := hall wc we rfl
        rcases h5 with h | h
        · exact absurd h0c (not_le.mpr h)
        · exact absurd h0e (not_le.mpr h)
      · simp only [true_iff]
        push_neg at h5
        refine ⟨?_, by omega, by omega, ?_⟩
        · by_cases hu : uid = none
          · right
            intro he
            exact h1 ⟨hu, he⟩
          · exact Or.inl hu
        · intro wc' we' heq
          cases heq
          exact ⟨h5.1, h5.2, not_lt.mp h4⟩

/-- `recommendation_models::ScoredEntity`; the score is an exact
rational. -/
structure ScoredEntity where
  entity_id : String
  entity_type : String
  score : ℚ
  reason : Option String
  deriving DecidableEq, Repr

/-- The minimum score of a list, as computed in
`HybridEngine::normalize_scores`: `min_by` over the scores with
`unwrap_or(0.0)` on the empty list. -/
def minScore : List ScoredEntity → ℚ
  | [] => 0
  | e :: es => (es.map (·.score)).foldl min e.score

/-- The maximum score of a list, as computed in
`HybridEngine::normalize_scores`: `max_by` over the scores with
`unwrap_or(1.0)` on the empty list. -/
def maxScore : List ScoredEntity → ℚ
  | [] => 1
  | e :: es => (es.map (·.score)).foldl max e.score

/-- `HybridEngine::normalize_scores` (`crates/engine/src/hybrid.rs`, lines
307-345): min-max normalization; when `|max − min| < 0.0001` every score
becomes `1.0`, otherwise each score becomes `(s − min)/(max − min)`. -/
def normalize_scores (entities : List ScoredEntity) : List ScoredEntity :=
  if entities.isEmpty then entities
  else
    if |maxScore entities - minScore entities| < 1/10000 then
      entities.map (fun e => { e with score := 1 })
    else
      entities.map (fun e =>
        { e with score := (e.score - minScore entities) /
            (maxScore entities - minScore entities) })

/-- Descending-score order used by the engines'
`sort_by(|a, b| b.score.partial_cmp(&a.score).unwrap())`. -/
def scoreGe (a b : ScoredEntity) : Prop := b.score ≤ a.score

instance : DecidableRel scoreGe := fun a b =>
  inferInstanceAs (Decidable (b.score ≤ a.score))

instance : IsTotal ScoredEntity scoreGe := ⟨fun a b => le_total b.score a.score⟩

instance : IsTrans ScoredEntity scoreGe := ⟨fun _ _ _ h1 h2 => le_trans h2 h1⟩

/-- Stable sort by descending score, modelling Rust's
`sort_by(|a, b| b.score.partial_cmp(&a.score).unwrap())`. -/
def sortByScoreDesc (l : List ScoredEntity) : List ScoredEntity :=
  l.insertionSort scoreGe

/-- Lookup in the per-list `HashMap<String, &ScoredEntity>` built by
`combine_scores`; collecting into the map lets a later occurrence of the
same `entity_id` overwrite an earlier one, hence the reversed search. -/
def mapLookup (l : List ScoredEntity) (entity_id : String) : Option ScoredEntity :=
  l.reverse.find? (fun e => e.entity_id = entity_id)

/-- The set of entity ids of both lists (`all_entity_ids` in
`combine_scores`), one occurrence each. -/
def unionIds (collab content : List ScoredEntity) : List String :=
  (collab.map (·.entity_id) ++ content.map (·.entity_id)).dedup

/-- Body of the closure mapped over the id union in
`HybridEngine::combine_scores`: weighted average of the two sides'
normalized scores for one entity id, with entity type and reason drawn
from whichever side knows the id. -/
def combineEntry (normalized_collab normalized_content : List ScoredEntity)
    (collab_weight content_weight : ℚ) (entity_id : String) : ScoredEntity :=
  let collab_score := ((mapLookup normalized_collab entity_id).map (·.score)).getD 0
  let content_score := ((mapLookup normalized_content entity_id).map (·.score)).getD 0
  let combined_score := collab_score * collab_weight + content_score * content_weight
  let entity_type :=
    (((mapLookup normalized_collab entity_id).or
      (mapLookup normalized_content entity_id)).map (·.entity_type)).getD "unknown"
  let reason :=
    match (mapLookup normalized_collab entity_id).isSome,
        (mapLookup normalized_content entity_id).isSome with
    | true, true => some ("Hybrid: " ++ toString (collab_weight * 100) ++
        "% collaborative, " ++ toString (content_weight * 100) ++ "% content similarity")
    | true, false => some "Based on similar users' preferences"
    | false, true => some "Based on content similarity"
    | false, false => none
  ScoredEntity.mk entity_id entity_type combined_score reason

/-- `HybridEngine::combine_scores` (`crates/engine/src/hybrid.rs`, lines
219-305): min-max normalize both sides, union the entity ids, weight and
add the two sides' normalized scores (0 when a side is absent), and sort
descending. -/
def combine_scores (collab_results content_results : List ScoredEntity)
    (collab_weight content_weight : ℚ) : List ScoredEntity :=
  sortByScoreDesc
    ((unionIds (normalize_scores collab_results) (normalize_scores content_results)).map
      (combineEntry (normalize_scores collab_results) (normalize_scores content_results)
        collab_weight content_weight))

theorem foldl_min_le_init (xs : List ℚ) : ∀ a : ℚ, xs.foldl min a ≤ a := by
  induction xs with
  | nil => intro a; simp
  | cons x xs ih =>
    intro a
    simpa using le_trans (ih (min a x)) (min_le_left a x)

theorem foldl_min_le_mem (xs : List ℚ) : ∀ a x, x ∈ xs → xs.foldl min a ≤ x := by
  induction xs with
  | nil => simp
  | cons y ys ih =>
    intro a x hx
    rcases List.mem_cons.mp hx with h | h
    · subst h
      exact le_trans (foldl_min_le_init ys (min a x)) (min_le_right a x)
    · exact ih (min a y) x h

theorem init_le_foldl_max (xs : List ℚ) : ∀ a : ℚ, a ≤ xs.foldl max a := by
  induction xs with
  | nil => intro a; simp
  | cons x xs ih =>
    intro a
    simpa using le_trans (le_max_left a x) (ih (max a x))

theorem mem_le_foldl_max (xs : List ℚ) : ∀ a x, x ∈ xs → x ≤ xs.foldl max a := by
  induction xs with
  | nil => simp
  | cons y ys ih =>
    intro a x hx
    rcases List.mem_cons.mp hx with h | h
    · subst h
      exact le_trans (le_max_right a x) (init_le_foldl_max ys (max a x))
    · exact ih (max a y) x h

theorem minScore_le_of_mem {l : List ScoredEntity} {e : ScoredEntity}
    (he : e ∈ l) : minScore l ≤ e.score := by
  cases l with
  | nil => cases he
  | cons hd tl =>
    rcases List.mem_cons.mp he with h | h
    · subst h
      exact foldl_min_le_init _ _
    · exact foldl_min_le_mem _ _ _ (List.mem_map_of_mem (·.score) h)

theorem le_maxScore_of_mem {l : List ScoredEntity} {e : ScoredEntity}
    (he : e ∈ l) : e.score ≤ maxScore l := by
  cases l with
  | nil => cases he
  | cons hd tl =>
    rcases List.mem_cons.mp he with h | h
    · subst h
      exact init_le_foldl_max _ _
    · exact mem_le_foldl_max _ _ _ (List.mem_map_of_mem (·.score) h)

theorem minScore_le_maxScore {l : List ScoredEntity} (h : l ≠ []) :
    minScore l ≤ maxScore l := by
  cases l with
  | nil => exact absurd rfl h
  | cons hd tl =>
    exact le_trans (minScore_le_of_mem (List.mem_cons_self hd tl))
      (le_maxScore_of_mem (List.mem_cons_self hd tl))

/-- C9 counterexample: on the list with scores `0` and `1/20000` the
minimum and maximum differ, yet `normalize_scores` does not apply the
claimed formula `(s − min)/(max − min)` — the code's `< 0.0001` epsilon
branch sets every score to `1.0` instead. -/
theorem normalize_scores_claim_counterexample :
    minScore [⟨"A", "t", 0, none⟩, ⟨"B", "t", 1/20000, none⟩] ≠
      maxScore [⟨"A", "t", 0, none⟩, ⟨"B", "t", 1/20000, none⟩] ∧
    (normalize_scores [⟨"A", "t", 0, none⟩, ⟨"B", "t", 1/20000, none⟩]).map (·.score) ≠
      [ScoredEntity.mk "A" "t" 0 none, ScoredEntity.mk "B" "t" (1/20000) none].map
        (fun e =>
          (e.score - minScore [⟨"A", "t", 0, none⟩, ⟨"B", "t", 1/20000, none⟩]) /
          (maxScore [⟨"A", "t", 0, none⟩, ⟨"B", "t", 1/20000, none⟩] -
            minScore [⟨"A", "t", 0, none⟩, ⟨"B", "t", 1/20000, none⟩])) := by
  have hmin : minScore [⟨"A", "t", 0, none⟩, ⟨"B", "t", 1/20000, none⟩] = 0 := by
    norm_num [minScore, min_def]
  have hmax : maxScore [⟨"A", "t", 0, none⟩, ⟨"B", "t", 1/20000, none⟩] = 1/20000 := by
    norm_num [maxScore, max_def]
  refine ⟨by rw [hmin, hmax]; norm_num, ?_⟩
  rw [normalize_scores, if_neg (by simp), hmin, hmax]
  norm_num
  intro h
  exact absurd (congrArg List.head? h) (by norm_num [abs_of_nonneg])

/-- C9 (amended): `normalize_scores` maps every non-empty list into
`[0,1]`, preserving ids, types and length; when `|max − min| < 0.0001`
(the code's tolerance for "max equals min") every score becomes exactly
`1.0`, and otherwise each score becomes `(s − min)/(max − min)`. -/
theorem normalize_scores_amended (l : List ScoredEntity) (hne : l ≠ []) :
    ((normalize_scores l).map (·.entity_id) = l.map (·.entity_id)) ∧
    ((normalize_scores l).map (·.entity_type) = l.map (·.entity_type)) ∧
    (normalize_scores l).length = l.length ∧
    (∀ e ∈ normalize_scores l, 0 ≤ e.score ∧ e.score ≤ 1) ∧
    (|maxScore l - minScore l| < 1/10000 →
      ∀ e ∈ normalize_scores l, e.score = 1) ∧
    (1/10000 ≤ |maxScore l - minScore l| →
      (normalize_scores l).map (·.score) =
        l.map (fun e => (e.score - minScore l) / (maxScore l - minScore l))) := by
  have hmm : minScore l ≤ maxScore l := minScore_le_maxScore hne
  rw [normalize_scores, if_neg (by simpa using hne)]
  split_ifs with hε
  · refine ⟨by simp, by simp, by simp, ?_, ?_, ?_⟩
    · intro e he
      rcases List.mem_map.mp he with ⟨e0, _, rfl⟩
      exact ⟨by norm_num, by norm_num⟩
    · intro _ e he
      rcases List.mem_map.mp he with ⟨e0, _, rfl⟩
      rfl
    · intro hge
      exact absurd hε (not_lt.mpr hge)
  · have hpos : 0 < maxScore l - minScore l := by
      rcases lt_or_eq_of_le hmm with h | h
      · linarith
      · exfalso
        apply hε
        rw [← h]
        norm_num
    refine ⟨by simp, by simp, by simp, ?_, ?_, ?_⟩
    · intro e he
      rcases List.mem_map.mp he with ⟨e0, he0, rfl⟩
      constructor
      · exact div_nonneg (by linarith [minScore_le_of_mem he0]) (le_of_lt hpos)
      · rw [div_le_one hpos]
        linarith [le_maxScore_of_mem he0]
    · intro hlt
      exact absurd hlt (by simpa using hε)
    · intro _
      simp

/-- C9 witness: the amended theorem applied to the concrete two-element
list with scores `0` and `1`. -/
theorem normalize_scores_amended_witness :
    ([⟨"A", "t", 0, none⟩, ⟨"B", "t", 1, none⟩] : List ScoredEntity) ≠ [] ∧
    (∀ e ∈ normalize_scores [⟨"A", "t", 0, none⟩, ⟨"B", "t", 1, none⟩],
      0 ≤ e.score ∧ e.score ≤ 1) :=
  ⟨by simp, (normalize_scores_amended [⟨"A", "t", 0, none⟩, ⟨"B", "t", 1, none⟩]
    (by simp)).2.2.2.1⟩

theorem normalize_scores_map_entity_id (l : List ScoredEntity) :
    (normalize_scores l).map (·.entity_id) = l.map (·.entity_id) := by
  rw [normalize_scores]
  split_ifs <;> simp

theorem combineEntry_entity_id (nc nk : List ScoredEntity) (wc we : ℚ)
    (entity_id : String) :
    (combineEntry nc nk wc we entity_id).entity_id = entity_id := rfl

theorem combineEntry_score (nc nk : List ScoredEntity) (wc we : ℚ)
    (entity_id : String) :
    (combineEntry nc nk wc we entity_id).score =
      ((mapLookup nc entity_id).map (·.score)).getD 0 * wc +
      ((mapLookup nk entity_id).map (·.score)).getD 0 * we := rfl

theorem sortByScoreDesc_three (a b c : ScoredEntity)
    (h1 : b.score ≤ a.score) (h2 : c.score ≤ b.score) :
    sortByScoreDesc [a, b, c] = [a, b, c] := by
  simp only [sortByScoreDesc, List.insertionSort, List.orderedInsert]
  rw [if_pos (show scoreGe b c from h2)]
  simp only [List.orderedInsert]
  rw [if_pos (show scoreGe a b from h1)]

/-- C8: `combine_scores` produces exactly one scored entity per entity id
in the union of the two input lists' id sets, each scored
`normalized_collab·w_c + normalized_content·w_e` (0 for an absent side),
sorted by score descending; on collab `[(X,1),(Y,1/2)]`, content
`[(Y,1),(Z,1/2)]` and weights `(0.6, 0.4)` the output is
`[(X, 0.6), (Y, 0.4), (Z, 0)]`. -/
theorem combine_scores_spec :
    (∀ (collab content : List ScoredEntity) (w_c w_e : ℚ),
      ((combine_scores collab content w_c w_e).map (·.entity_id)).Nodup ∧
      (∀ id : String,
        id ∈ (combine_scores collab content w_c w_e).map (·.entity_id) ↔
          (id ∈ collab.map (·.entity_id) ∨ id ∈ content.map (·.entity_id))) ∧
      (∀ e ∈ combine_scores collab content w_c w_e,
        e.score =
          ((mapLookup (normalize_scores collab) e.entity_id).map (·.score)).getD 0 * w_c +
          ((mapLookup (normalize_scores content) e.entity_id).map (·.score)).getD 0 * w_e) ∧
      List.Sorted (fun a b => b.score ≤ a.score) (combine_scores collab content w_c w_e)) ∧
    (combine_scores [⟨"X", "t", 1, none⟩, ⟨"Y", "t", 1/2, none⟩]
        [⟨"Y", "t", 1, none⟩, ⟨"Z", "t", 1/2, none⟩] (6/10) (4/10)).map
      (fun e => (e.entity_id, e.score)) = [("X", 3/5), ("Y", 2/5), ("Z", 0)] := by
  constructor
  · intro collab content w_c w_e
    have hperm :
        List.Perm (combine_scores collab content w_c w_e)
          ((unionIds (normalize_scores collab) (normalize_scores content)).map
            (combineEntry (normalize_scores collab) (normalize_scores content) w_c w_e)) :=
      List.perm_insertionSort scoreGe _
    have hids :
        ((unionIds (normalize_scores collab) (normalize_scores content)).map
            (combineEntry (normalize_scores collab) (normalize_scores content) w_c w_e)).map
          (·.entity_id) =
        unionIds (normalize_scores collab) (normalize_scores content) := by
      rw [List.map_map]
      exact List.map_id'' (fun _ => rfl) _
    refine ⟨?_, ?_, ?_, ?_⟩
    · rw [(hperm.map (·.entity_id)).nodup_iff, hids]
      exact List.nodup_dedup _
    · intro id
      rw [(hperm.map (·.entity_id)).mem_iff, hids, unionIds, List.mem_dedup,
        List.mem_append, normalize_scores_map_entity_id, normalize_scores_map_entity_id]
    · intro e he
      rcases List.mem_map.mp (hperm.mem_iff.mp he) with ⟨id, _, rfl⟩
      rw [combineEntry_entity_id, combineEntry_score]
    · exact List.sorted_insertionSort scoreGe _
  · have hnc : normalize_scores [⟨"X", "t", 1, none⟩, ⟨"Y", "t", 1/2, none⟩] =
        [⟨"X", "t", 1, none⟩, ⟨"Y", "t", 0, none⟩] := by
      have hmin : minScore [⟨"X", "t", 1, none⟩, ⟨"Y", "t", 1/2, none⟩] = 1/2 := by
        norm_num [minScore, min_def]
      have hmax : maxScore [⟨"X", "t", 1, none⟩, ⟨"Y", "t", 1/2, none⟩] = 1 := by
        norm_num [maxScore, max_def]
      rw [normalize_scores, if_neg (by simp), hmin, hmax,
        if_neg (by norm_num [abs_of_nonneg])]
      norm_num
    have hnk : normalize_scores [⟨"Y", "t", 1, none⟩, ⟨"Z", "t", 1/2, none⟩] =
        [⟨"Y", "t", 1, none⟩, ⟨"Z", "t", 0, none⟩] := by
      have hmin : minScore [⟨"Y", "t", 1, none⟩, ⟨"Z", "t", 1/2, none⟩] = 1/2 := by
        norm_num [minScore, min_def]
      have hmax : maxScore [⟨"Y", "t", 1, none⟩, ⟨"Z", "t", 1/2, none⟩] = 1 := by
        norm_num [maxScore, max_def]
      rw [normalize_scores, if_neg (by simp), hmin, hmax,
        if_neg (by norm_num [abs_of_nonneg])]
      norm_num
    rw [combine_scores, hnc, hnk]
    have hunion : unionIds [⟨"X", "t", 1, none⟩, ⟨"Y", "t", 0, none⟩]
        [⟨"Y", "t", 1, none⟩, ⟨"Z", "t", 0, none⟩] = ["X", "Y", "Z"] := by
      show (["X", "Y"] ++ ["Y", "Z"] : List String).dedup = ["X", "Y", "Z"]
      decide
    rw [hunion]
    have hX : (combineEntry [⟨"X", "t", 1, none⟩, ⟨"Y", "t", 0, none⟩]
        [⟨"Y", "t", 1, none⟩, ⟨"Z", "t", 0, none⟩] (6/10) (4/10) "X").score = 3/5 := by
      rw [combineEntry_score,
        show mapLookup [⟨"X", "t", 1, none⟩, ⟨"Y", "t", 0, none⟩] "X" =
          some ⟨"X", "t", 1, none⟩ by simp [mapLookup, List.find?],
        show mapLookup [⟨"Y", "t", 1, none⟩, ⟨"Z", "t", 0, none⟩] "X" = none by
          simp [mapLookup, List.find?]]
      norm_num
    have hY : (combineEntry [⟨"X", "t", 1, none⟩, ⟨"Y", "t", 0, none⟩]
        [⟨"Y", "t", 1, none⟩, ⟨"Z", "t", 0, none⟩] (6/10) (4/10) "Y").score = 2/5 := by
      rw [combineEntry_score,
        show mapLookup [⟨"X", "t", 1, none⟩, ⟨"Y", "t", 0, none⟩] "Y" =
          some ⟨"Y", "t", 0, none⟩ by simp [mapLookup, List.find?],
        show mapLookup [⟨"Y", "t", 1, none⟩, ⟨"Z", "t", 0, none⟩] "Y" =
          some ⟨"Y", "t", 1, none⟩ by simp [mapLookup, List.find?]]
      norm_num
    have hZ : (combineEntry [⟨"X", "t", 1, none⟩, ⟨"Y", "t", 0, none⟩]
        [⟨"Y", "t", 1, none⟩, ⟨"Z", "t", 0, none⟩] (6/10) (4/10) "Z").score = 0 := by
      rw [combineEntry_score,
        show mapLookup [⟨"X", "t", 1, none⟩, ⟨"Y", "t", 0, none⟩] "Z" = none by
          simp [mapLookup, List.find?],
        show mapLookup [⟨"Y", "t", 1, none⟩, ⟨"Z", "t", 0, none⟩] "Z" =
          some ⟨"Z", "t", 0, none⟩ by simp [mapLookup, List.find?]]
      norm_num
    rw [List.map_cons, List.map_cons, List.map_singleton,
      sortByScoreDesc_three _ _ _ (by rw [hX, hY]; norm_num) (by rw [hY, hZ]; norm_num)]
    simp only [List.map_cons, List.map_singleton, hX, hY, hZ]
    rfl

/-- C5 witness: the characterization of `validate_request` instantiated
at a concrete valid request. -/
theorem validate_request_spec_witness :
    validate_request ⟨some "w", none, .Collaborative, 5, none⟩ = .ok () ↔
      ((some "w" ≠ (none : Option String) ∨ (none : Option String) ≠ none) ∧
        1 ≤ 5 ∧ 5 ≤ 100 ∧
        ∀ wc we : ℚ, Algorithm.Collaborative = .Hybrid wc we →
          0 ≤ wc ∧ 0 ≤ we ∧ |wc + we - 1| ≤ 1/1000) :=
  validate_request_spec.1 ⟨some "w", none, .Collaborative, 5, none⟩

/-- C8 witness: the score formula of `combine_scores_spec` applied to a
concrete member of a concrete combined list. -/
theorem combine_scores_spec_witness :
    (⟨"A", "t", 1, some "Based on similar users' preferences"⟩ : ScoredEntity).score =
      ((mapLookup (normalize_scores [⟨"A", "t", 1, none⟩])
        (ScoredEntity.entity_id ⟨"A", "t", 1, some "Based on similar users' preferences"⟩)).map
          (·.score)).getD 0 * 1 +
      ((mapLookup (normalize_scores ([] : List ScoredEntity))
        (ScoredEntity.entity_id ⟨"A", "t", 1, some "Based on similar users' preferences"⟩)).map
          (·.score)).getD 0 * 0 := by
  have norm1 : normalize_scores [⟨"A", "t", 1, none⟩] = [⟨"A", "t", 1, none⟩] := by
    rw [normalize_scores, if_neg (by simp),
      if_pos (by norm_num [minScore, maxScore])]
    rfl
  have norm2 : normalize_scores ([] : List ScoredEntity) = [] := rfl
  have hunion : unionIds [⟨"A", "t", 1, none⟩] ([] : List ScoredEntity) = ["A"] := by
    show (["A"] ++ [] : List String).dedup = ["A"]
    decide
  have hentry : combineEntry [⟨"A", "t", 1, none⟩] [] 1 0 "A" =
      ⟨"A", "t", 1, some "Based on similar users' preferences"⟩ := by
    simp [combineEntry, mapLookup, List.find?]
  have hc : combine_scores [⟨"A", "t", 1, none⟩] [] 1 0 =
      [⟨"A", "t", 1, some "Based on similar users' preferences"⟩] := by
    rw [combine_scores, norm1, norm2, hunion, List.map_singleton, hentry]
    simp [sortByScoreDesc, List.insertionSort, List.orderedInsert]
  exact (combine_scores_spec.1 [⟨"A", "t", 1, none⟩] [] 1 0).2.2.1 _
    (hc ▸ List.mem_singleton_self _)

/-- The `dot_product` computation of
`CollaborativeFilteringEngine::cosine_similarity`: sum of pairwise
products over `zip`. -/
def dotProduct (vec1 vec2 : List ℝ) : ℝ :=
  ((vec1.zip vec2).map (fun p => p.1 * p.2)).sum

/-- The `magnitude` computations of `cosine_similarity`: square root of
the sum of squares. -/
noncomputable def magnitude (vec : List ℝ) : ℝ :=
  Real.sqrt ((vec.map (fun x => x * x)).sum)

/-- `CollaborativeFilteringEngine::cosine_similarity`
(`crates/engine/src/collaborative.rs`, lines 117-132): returns `0` when
the lengths differ or the first vector is empty, `0` when either
magnitude is zero, and the normalized dot product otherwise. -/
noncomputable def cosine_similarity (vec1 vec2 : List ℝ) : ℝ :=
  if vec1.length ≠ vec2.length ∨ vec1 = [] then 0
  else if magnitude vec1 = 0 ∨ magnitude vec2 = 0 then 0
  else dotProduct vec1 vec2 / (magnitude vec1 * magnitude vec2)

/-- C10: `cosine_similarity` is total with its degenerate branches
guarded: it returns exactly `0` whenever the vectors have different
lengths, whenever either vector is empty, and whenever either vector has
zero magnitude; in the remaining case it is the dot product divided by
the product of the (then provably non-zero) magnitudes, so no division
by zero occurs. -/
theorem cosine_similarity_spec (vec1 vec2 : List ℝ) :
    (vec1.length ≠ vec2.length → cosine_similarity vec1 vec2 = 0) ∧
    (vec1 = [] → cosine_similarity vec1 vec2 = 0) ∧
    (vec2 = [] → cosine_similarity vec1 vec2 = 0) ∧
    (magnitude vec1 = 0 → cosine_similarity vec1 vec2 = 0) ∧
    (magnitude vec2 = 0 → cosine_similarity vec1 vec2 = 0) ∧
    (cosine_similarity vec1 vec2 = 0 ∨
      (magnitude vec1 * magnitude vec2 ≠ 0 ∧
        cosine_similarity vec1 vec2 =
          dotProduct vec1 vec2 / (magnitude vec1 * magnitude vec2))) := by
  unfold cosine_similarity
  split_ifs with h1 h2
  · exact ⟨fun _ => rfl, fun _ => rfl, fun _ => rfl, fun _ => rfl, fun _ => rfl,
      Or.inl rfl⟩
  · exact ⟨fun _ => rfl, fun _ => rfl, fun _ => rfl, fun _ => rfl, fun _ => rfl,
      Or.inl rfl⟩
  · push_neg at h1 h2
    refine ⟨fun h => absurd h (by simp [h1.1]), fun h => absurd h h1.2, ?_,
      fun h => absurd h h2.1, fun h => absurd h h2.2,
      Or.inr ⟨mul_ne_zero h2.1 h2.2, rfl⟩⟩
    intro h
    subst h
    exact absurd (List.length_eq_zero.mp (by simpa using h1.1)) h1.2

/-- C10 witness: the different-length branch of `cosine_similarity_spec`
at the concrete vectors `[1,2,3]` and `[1,2]`. -/
theorem cosine_similarity_spec_witness :
    cosine_similarity [1, 2, 3] [1, 2] = 0 :=
  (cosine_similarity_spec [1, 2, 3] [1, 2]).1 (by simp)

/-- `recommendation_models::AttributeValue`; numbers are exact
rationals. -/
inductive AttributeValue where
  | String (s : String)
  | Number (n : ℚ)
  | Boolean (b : Bool)
  | Array (arr : List String)
  deriving DecidableEq, Repr

/-- A `HashMap<String, AttributeValue>` presented in one possible
iteration order: Rust's map iteration order depends on the hasher seed
and insertion history, so two maps holding the same associations may
enumerate them differently. -/
def AttributeBag := List (String × AttributeValue)

/-- `DefaultFeatureExtractor::hash_string`: fold
`hash = hash.wrapping_mul(31).wrapping_add(byte)` over the UTF-8 bytes
on `u32`, then `(hash % 1000) / 1000`. -/
def hash_string (s : String) : ℚ :=
  let hash := s.toUTF8.toList.foldl (fun h b => (h * 31 + b.toNat) % 2 ^ 32) 0
  ((hash % 1000 : ℕ) : ℚ) / 1000

/-- `DefaultFeatureExtractor::extract_attribute_features`
(`crates/models/src/feature_extractor.rs`, lines 30-64): pushes one
component per attribute value — clamped number, 0/1 boolean, string
hash, or mean of per-string hashes (0 for an empty array). -/
def extract_attribute_features (value : AttributeValue)
    (features : List ℚ) : List ℚ :=
  match value with
  | .Number n => features ++ [if n < 0 then 0 else if 1 < n then 1 else n]
  | .Boolean b => features ++ [if b then 1 else 0]
  | .String s => features ++ [hash_string s]
  | .Array arr =>
    if arr.isEmpty then features ++ [0]
    else features ++ [(arr.map hash_string).sum / (arr.length : ℚ)]

/-- `DefaultFeatureExtractor::extract_nested_features`
(`crates/models/src/feature_extractor.rs`, lines 78-93): guard on depth,
then iterate the attribute map in its iteration order, extracting each
value's components. -/
def extract_nested_features (attributes : AttributeBag)
    (features : List ℚ) (depth : Nat) : List ℚ :=
  if depth > 3 then features
  else attributes.foldl (fun fs kv => extract_attribute_features kv.2 fs) features

/-- `DefaultFeatureExtractor::resize_vector`: pad with zeros or truncate
to the configured dimension. -/
def resize_vector (dimension : Nat) (features : List ℚ) : List ℚ :=
  if features.length < dimension then
    features ++ List.replicate (dimension - features.length) 0
  else if features.length > dimension then features.take dimension
  else features

/-- Magnitude computed inside `DefaultFeatureExtractor::normalize_vector`:
square root of the sum of squared components. -/
noncomputable def featMagnitude (features : List ℚ) : ℝ :=
  Real.sqrt ((features.map (fun x : ℚ => ((x : ℝ) * (x : ℝ)))).sum)

/-- `DefaultFeatureExtractor::normalize_vector`: divide every component
by the magnitude if it is positive, leave the vector unchanged
otherwise. -/
noncomputable def normalize_vector (features : List ℚ) : List ℝ :=
  if 0 < featMagnitude features then
    features.map (fun x : ℚ => (x : ℝ) / featMagnitude features)
  else
    features.map (fun x : ℚ => (x : ℝ))

/-- `recommendation_models::DefaultFeatureExtractor`: carries the target
dimension. -/
structure DefaultFeatureExtractor where
  dimension : Nat

/-- The pure pipeline of `DefaultFeatureExtractor::extract_features`:
extract, resize to the dimension, L2-normalize. -/
noncomputable def extractFeatureList (self : DefaultFeatureExtractor)
    (attributes : AttributeBag) : List ℝ :=
  normalize_vector (resize_vector self.dimension
    (extract_nested_features attributes [] 0))

/-- `DefaultFeatureExtractor::extract_features`
(`crates/models/src/feature_extractor.rs`, lines 117-139); every path of
the source returns `Ok`. -/
noncomputable def extract_features (self : DefaultFeatureExtractor)
    (attributes : AttributeBag) : Except RecommendationError (List ℝ) :=
  .ok (extractFeatureList self attributes)

/-- L2 norm of a real vector, used to state the extractor contract. -/
noncomputable def l2norm (v : List ℝ) : ℝ :=
  Real.sqrt ((v.map (fun x => x * x)).sum)

theorem resize_vector_length (D : Nat) (l : List ℚ) :
    (resize_vector D l).length = D := by
  unfold resize_vector
  split_ifs with h1 h2
  · simp
    omega
  · simp
    omega
  · omega

theorem sum_squares_nonneg (l : List ℚ) :
    0 ≤ (l.map (fun x : ℚ => ((x : ℝ) * (x : ℝ)))).sum := by
  apply List.sum_nonneg
  intro x hx
  rcases List.mem_map.mp hx with ⟨y, _, rfl⟩
  exact mul_self_nonneg _

theorem l2norm_normalize_vector (l : List ℚ) :
    l2norm (normalize_vector l) = 0 ∨ l2norm (normalize_vector l) = 1 := by
  have hS : 0 ≤ (l.map (fun x : ℚ => ((x : ℝ) * (x : ℝ)))).sum := sum_squares_nonneg l
  rw [normalize_vector]
  split_ifs with hm
  · right
    have hm2 : featMagnitude l * featMagnitude l =
        (l.map (fun x : ℚ => ((x : ℝ) * (x : ℝ)))).sum := Real.mul_self_sqrt hS
    have hSpos : (0 : ℝ) < (l.map (fun x : ℚ => ((x : ℝ) * (x : ℝ)))).sum := by
      rw [← hm2]
      exact mul_pos hm hm
    rw [l2norm, List.map_map]
    have hmap : (fun x : ℚ => ((x : ℝ) / featMagnitude l) * ((x : ℝ) / featMagnitude l)) =
        (fun x : ℚ => ((x : ℝ) * (x : ℝ)) * (featMagnitude l * featMagnitude l)⁻¹) := by
      funext x
      field_simp
    calc Real.sqrt ((l.map ((fun x : ℝ => x * x) ∘ fun x : ℚ => (x : ℝ) / featMagnitude l)).sum)
        = Real.sqrt ((l.map (fun x : ℚ => ((x : ℝ) * (x : ℝ)) *
            (featMagnitude l * featMagnitude l)⁻¹)).sum) := by
          rw [show ((fun x : ℝ => x * x) ∘ fun x : ℚ => (x : ℝ) / featMagnitude l) =
            fun x : ℚ => ((x : ℝ) / featMagnitude l) * ((x : ℝ) / featMagnitude l) from rfl,
            hmap]
      _ = Real.sqrt ((l.map (fun x : ℚ => ((x : ℝ) * (x : ℝ)))).sum *
            (featMagnitude l * featMagnitude l)⁻¹) := by
          rw [← List.sum_map_mul_right]
      _ = 1 := by
          rw [hm2, mul_inv_cancel₀ (ne_of_gt hSpos), Real.sqrt_one]
  · left
    have hm0 : featMagnitude l = 0 :=
      le_antisymm (not_lt.mp hm) (Real.sqrt_nonneg _)
    rw [l2norm, List.map_map]
    rw [show ((fun x : ℝ => x * x) ∘ fun x : ℚ => (x : ℝ)) =
      fun x : ℚ => ((x : ℝ) * (x : ℝ)) from rfl]
    exact hm0

theorem normalize_vector_length (l : List ℚ) :
    (normalize_vector l).length = l.length := by
  rw [normalize_vector]
  split_ifs <;> simp

/-- C7: for every attribute bag the default extractor returns `Ok` with
a vector of length exactly the configured dimension whose L2 norm is
either 0 (all-zero vector) or exactly 1 after normalization, hence lies
in `[0, 1.01]`. -/
theorem extract_features_spec (self : DefaultFeatureExtractor)
    (attributes : AttributeBag) :
    extract_features self attributes = .ok (extractFeatureList self attributes) ∧
    (extractFeatureList self attributes).length = self.dimension ∧
    (l2norm (extractFeatureList self attributes) = 0 ∨
      l2norm (extractFeatureList self attributes) = 1) ∧
    0 ≤ l2norm (extractFeatureList self attributes) ∧
    l2norm (extractFeatureList self attributes) ≤ 101 / 100 := by
  refine ⟨rfl, ?_, ?_, Real.sqrt_nonneg _, ?_⟩
  · rw [extractFeatureList, normalize_vector_length, resize_vector_length]
  · exact l2norm_normalize_vector _
  · rcases l2norm_normalize_vector
      (resize_vector self.dimension (extract_nested_features attributes [] 0)) with h | h <;>
      rw [extractFeatureList, h] <;> norm_num

/-- C4 failing input: the two bags hold exactly the same key-value
associations (`{a ↦ true, b ↦ false}`, distinct keys, one a permutation
of the other) yet, presented in the two iteration orders a `HashMap` may
produce, `extract_features` returns `[1, 0]` for one enumeration and
`[0, 1]` for the other — the extractor is not a pure function of the
bag. -/
theorem extract_features_iteration_order :
    List.Perm
      [("a", AttributeValue.Boolean true), ("b", AttributeValue.Boolean false)]
      [("b", AttributeValue.Boolean false), ("a", AttributeValue.Boolean true)] ∧
    (List.map Prod.fst
      [("a", AttributeValue.Boolean true), ("b", AttributeValue.Boolean false)]).Nodup ∧
    extract_features ⟨2⟩
        [("a", AttributeValue.Boolean true), ("b", AttributeValue.Boolean false)] =
      .ok [1, 0] ∧
    extract_features ⟨2⟩
        [("b", AttributeValue.Boolean false), ("a", AttributeValue.Boolean true)] =
      .ok [0, 1] ∧
    extract_features ⟨2⟩
        [("a", AttributeValue.Boolean true), ("b", AttributeValue.Boolean false)] ≠
      extract_features ⟨2⟩
        [("b", AttributeValue.Boolean false), ("a", AttributeValue.Boolean true)] := by
  have hmag10 : featMagnitude [1, 0] = 1 := by
    rw [featMagnitude]
    norm_num
  have hmag01 : featMagnitude [0, 1] = 1 := by
    rw [featMagnitude]
    norm_num
  have h1 : extract_features ⟨2⟩
      [("a", AttributeValue.Boolean true), ("b", AttributeValue.Boolean false)] =
      .ok [1, 0] := by
    rw [extract_features, extractFeatureList,
      show extract_nested_features
        [("a", AttributeValue.Boolean true), ("b", AttributeValue.Boolean false)] [] 0 =
        [1, 0] from rfl,
      show resize_vector 2 [1, 0] = [1, 0] from rfl,
      normalize_vector, hmag10, if_pos one_pos]
    norm_num
  have h2 : extract_features ⟨2⟩
      [("b", AttributeValue.Boolean false), ("a", AttributeValue.Boolean true)] =
      .ok [0, 1] := by
    rw [extract_features, extractFeatureList,
      show extract_nested_features
        [("b", AttributeValue.Boolean false), ("a", AttributeValue.Boolean true)] [] 0 =
        [0, 1] from rfl,
      show resize_vector 2 [0, 1] = [0, 1] from rfl,
      normalize_vector, hmag01, if_pos one_pos]
    norm_num
  refine ⟨List.Perm.swap _ _ _, by simp, h1, h2, ?_⟩
  rw [h1, h2]
  simp

/-- `recommendation_models::TenantContext`: the tenant identifier that
scopes every query. -/
structure TenantContext where
  tenant_id : String
  deriving DecidableEq, Repr

/-- `recommendation_models::InteractionType`. -/
inductive InteractionType where
  | View
  | AddToCart
  | Purchase
  | Like
  | Rating (r : ℚ)
  | Custom (s : String)
  deriving DecidableEq, Repr

/-- The serialization of `InteractionType` performed inside
`VectorStore::record_interaction`. -/
def interactionTypeStr : InteractionType → String
  | .View => "view"
  | .AddToCart => "add_to_cart"
  | .Purchase => "purchase"
  | .Like => "like"
  | .Rating r => "rating_" ++ toString r
  | .Custom s => s

/-- One row of the `interactions` table. -/
structure InteractionRow where
  tenant_id : String
  user_id : String
  entity_id : String
  entity_type : String
  interaction_type : String
  weight : ℚ
  metadata : Option (List (String × String))
  timestamp : Int
  deriving DecidableEq, Repr

/-- One row of the `user_profiles` table. -/
structure ProfileRow where
  tenant_id : String
  user_id : String
  preference_vector : List ℚ
  interaction_count : Int
  deriving DecidableEq, Repr

/-- One row of the `entities` table (the fields the embedded claims
need). -/
structure EntityRow where
  tenant_id : String
  entity_id : String
  entity_type : String
  deriving DecidableEq, Repr

/-- The state behind `VectorStore`: the tables as lists of rows, the
current time (`Utc::now()` as epoch seconds), and the pgvector ANN
similar-user query modelled as an oracle over
`(tenant, preference_vector, k, exclude_user)` — the claims quantify
over all its possible answers. -/
structure Store where
  now : Int
  profiles : List ProfileRow
  interactions : List InteractionRow
  entities : List EntityRow
  annSimilarUsers : String → List ℚ → Nat → Option String → List (ProfileRow × ℚ)

/-- Redis contents for trending lists: association list from key strings
to cached `Vec<ScoredEntity>` values. -/
abbrev Cache := List (String × List ScoredEntity)

/-- `RedisCache::get` for a trending key. -/
def cacheGet (cache : Cache) (key : String) : Option (List ScoredEntity) :=
  (List.find? (fun kv => kv.1 == key) cache).map (·.2)

/-- `RedisCache::set` for a trending key: overwrite any existing entry. -/
def cacheSet (cache : Cache) (key : String) (value : List ScoredEntity) : Cache :=
  (key, value) :: List.filter (fun kv => kv.1 != key) cache

/-- `VectorStore::get_user_profile`: `SELECT ... FROM user_profiles WHERE
tenant_id = $1 AND user_id = $2` with `fetch_optional`. -/
def get_user_profile (s : Store) (ctx : TenantContext) (user_id : String) :
    Option ProfileRow :=
  s.profiles.find? (fun p => p.tenant_id == ctx.tenant_id && p.user_id == user_id)

/-- `VectorStore::get_entity`: `SELECT ... FROM entities WHERE tenant_id
= $1 AND entity_id = $2 AND entity_type = $3` with `fetch_optional`. -/
def get_entity (s : Store) (ctx : TenantContext)
    (entity_id entity_type : String) : Option EntityRow :=
  s.entities.find? (fun e =>
    e.tenant_id == ctx.tenant_id && e.entity_id == entity_id &&
      e.entity_type == entity_type)

/-- `VectorStore::get_user_interacted_entities`: `SELECT DISTINCT
entity_id FROM interactions WHERE tenant_id = $1 AND user_id = $2`. -/
def get_user_interacted_entities (s : Store) (ctx : TenantContext)
    (user_id : String) : List String :=
  ((s.interactions.filter (fun i =>
    i.tenant_id == ctx.tenant_id && i.user_id == user_id)).map (·.entity_id)).dedup

/-- Newest-first order on interaction rows (`ORDER BY timestamp DESC`). -/
def tsGe (a b : InteractionRow) : Prop := b.timestamp ≤ a.timestamp

instance : DecidableRel tsGe := fun a b =>
  inferInstanceAs (Decidable (b.timestamp ≤ a.timestamp))

instance : IsTotal InteractionRow tsGe := ⟨fun a b => le_total b.timestamp a.timestamp⟩

instance : IsTrans InteractionRow tsGe := ⟨fun _ _ _ h1 h2 => le_trans h2 h1⟩

/-- `VectorStore::get_user_interactions`: tenant- and user-filtered rows,
newest first, `LIMIT $3 OFFSET $4`. -/
def get_user_interactions (s : Store) (ctx : TenantContext) (user_id : String)
    (limit offset : Nat) : List InteractionRow :=
  ((((s.interactions.filter (fun i =>
    i.tenant_id == ctx.tenant_id && i.user_id == user_id)).insertionSort
      tsGe).drop offset).take limit)

/-- The dedup key of the `interactions` unique constraint
`(tenant_id, user_id, entity_id, interaction_type, timestamp)` targeted
by `record_interaction`'s `ON CONFLICT`. -/
def dedupKeyMatches (tenant user entity itype : String) (ts : Int)
    (row : InteractionRow) : Prop :=
  row.tenant_id = tenant ∧ row.user_id = user ∧ row.entity_id = entity ∧
    row.interaction_type = itype ∧ row.timestamp = ts

instance (tenant user entity itype : String) (ts : Int) (row : InteractionRow) :
    Decidable (dedupKeyMatches tenant user entity itype ts row) := by
  unfold dedupKeyMatches
  infer_instance

/-- `VectorStore::record_interaction` (`crates/storage/src/vector_store.rs`,
lines 539-604), restricted to its effect on the `interactions` table:
`INSERT ... ON CONFLICT (tenant_id, user_id, entity_id,
interaction_type, timestamp) DO UPDATE SET weight = EXCLUDED.weight,
metadata = EXCLUDED.metadata`. -/
def record_interaction (tbl : List InteractionRow) (ctx : TenantContext)
    (user_id entity_id entity_type : String) (itype : InteractionType)
    (weight : ℚ) (metadata : Option (List (String × String)))
    (timestamp : Int) : List InteractionRow :=
  if tbl.any (fun r =>
      decide (dedupKeyMatches ctx.tenant_id user_id entity_id
        (interactionTypeStr itype) timestamp r)) then
    tbl.map (fun r =>
      if dedupKeyMatches ctx.tenant_id user_id entity_id
          (interactionTypeStr itype) timestamp r then
        { r with weight := weight, metadata := metadata }
      else r)
  else
    tbl ++ [⟨ctx.tenant_id, user_id, entity_id, entity_type,
      interactionTypeStr itype, weight, metadata, timestamp⟩]

/-- The rows of an interactions table matching one dedup key. -/
def matchingRows (tbl : List InteractionRow) (tenant user entity itype : String)
    (ts : Int) : List InteractionRow :=
  tbl.filter (fun r => decide (dedupKeyMatches tenant user entity itype ts r))

theorem dedupKeyMatches_update (tenant user entity itype : String) (ts : Int)
    (r : InteractionRow) (w : ℚ) (m : Option (List (String × String))) :
    dedupKeyMatches tenant user entity itype ts
      { r with weight := w, metadata := m } ↔
    dedupKeyMatches tenant user entity itype ts r := Iff.rfl

theorem matchingRows_record (tbl : List InteractionRow) (ctx : TenantContext)
    (u e ety : String) (itype : InteractionType) (w : ℚ)
    (m : Option (List (String × String))) (ts : Int) :
    matchingRows (record_interaction tbl ctx u e ety itype w m ts)
        ctx.tenant_id u e (interactionTypeStr itype) ts =
      if tbl.any (fun r => decide (dedupKeyMatches ctx.tenant_id u e
          (interactionTypeStr itype) ts r)) then
        (matchingRows tbl ctx.tenant_id u e (interactionTypeStr itype) ts).map
          (fun r => { r with weight := w, metadata := m })
      else
        [⟨ctx.tenant_id, u, e, ety, interactionTypeStr itype, w, m, ts⟩] := by
  rw [record_interaction]
  split_ifs with hany
  · rw [matchingRows, matchingRows, List.filter_map]
    have hfun : ((fun r => decide (dedupKeyMatches ctx.tenant_id u e
        (interactionTypeStr itype) ts r)) ∘ (fun r =>
          if dedupKeyMatches ctx.tenant_id u e (interactionTypeStr itype) ts r then
            { r with weight := w, metadata := m }
          else r)) =
        (fun r => decide (dedupKeyMatches ctx.tenant_id u e
          (interactionTypeStr itype) ts r)) := by
      funext r
      by_cases hr : dedupKeyMatches ctx.tenant_id u e (interactionTypeStr itype) ts r
      · simp only [Function.comp_apply, if_pos hr]
        rw [decide_eq_decide.mpr (dedupKeyMatches_update _ _ _ _ _ r w m)]
      · simp only [Function.comp_apply, if_neg hr]
    rw [hfun]
    apply List.map_congr_left
    intro r hr
    unfold matchingRows at hr
    exact if_pos (of_decide_eq_true (List.mem_filter.mp hr).2)
  · rw [matchingRows, List.filter_append]
    have hnew : (List.filter (fun r => decide (dedupKeyMatches ctx.tenant_id u e
        (interactionTypeStr itype) ts r))
        [⟨ctx.tenant_id, u, e, ety, interactionTypeStr itype, w, m, ts⟩]) =
        [⟨ctx.tenant_id, u, e, ety, interactionTypeStr itype, w, m, ts⟩] := by
      simp [dedupKeyMatches]
    rw [hnew, show List.filter (fun r => decide (dedupKeyMatches ctx.tenant_id u e
      (interactionTypeStr itype) ts r)) tbl = [] from List.filter_eq_nil_iff.mpr
        (fun r hr hp => hany (List.any_eq_true.mpr ⟨r, hr, hp⟩))]
    rfl

/-- C6: starting from any interactions table in which the dedup key
`(tenant, user, entity, interaction_type, timestamp)` identifies at most
one row (the table's unique constraint), two successive
`record_interaction` calls with identical key values leave exactly one
row matching that key, and that row carries the weight and metadata of
the second call. -/
theorem record_interaction_dedup (tbl : List InteractionRow)
    (ctx : TenantContext) (user_id entity_id ety1 ety2 : String)
    (itype : InteractionType) (w1 w2 : ℚ)
    (m1 m2 : Option (List (String × String))) (ts : Int)
    (h : (matchingRows tbl ctx.tenant_id user_id entity_id
      (interactionTypeStr itype) ts).length ≤ 1) :
    (matchingRows
        (record_interaction
          (record_interaction tbl ctx user_id entity_id ety1 itype w1 m1 ts)
          ctx user_id entity_id ety2 itype w2 m2 ts)
        ctx.tenant_id user_id entity_id (interactionTypeStr itype) ts).length = 1 ∧
    ∀ r ∈ matchingRows
        (record_interaction
          (record_interaction tbl ctx user_id entity_id ety1 itype w1 m1 ts)
          ctx user_id entity_id ety2 itype w2 m2 ts)
        ctx.tenant_id user_id entity_id (interactionTypeStr itype) ts,
      r.weight = w2 ∧ r.metadata = m2 := by
  have hrec1 := matchingRows_record tbl ctx user_id entity_id ety1 itype w1 m1 ts
  have h1len : (matchingRows
      (record_interaction tbl ctx user_id entity_id ety1 itype w1 m1 ts)
      ctx.tenant_id user_id entity_id (interactionTypeStr itype) ts).length = 1 := by
    rw [hrec1]
    split_ifs with hany
    · rw [List.length_map]
      rcases List.any_eq_true.mp hany with ⟨x, hx, hpx⟩
      have hxmem : x ∈ matchingRows tbl ctx.tenant_id user_id entity_id
          (interactionTypeStr itype) ts := List.mem_filter.mpr ⟨hx, hpx⟩
      have : 1 ≤ (matchingRows tbl ctx.tenant_id user_id entity_id
          (interactionTypeStr itype) ts).length :=
        List.length_pos.mpr (List.ne_nil_of_mem hxmem)
      omega
    · rfl
  have hany1 : (record_interaction tbl ctx user_id entity_id ety1 itype w1 m1 ts).any
      (fun r => decide (dedupKeyMatches ctx.tenant_id user_id entity_id
        (interactionTypeStr itype) ts r)) = true := by
    have hne : matchingRows
        (record_interaction tbl ctx user_id entity_id ety1 itype w1 m1 ts)
        ctx.tenant_id user_id entity_id (interactionTypeStr itype) ts ≠ [] := by
      intro hnil
      rw [hnil] at h1len
      exact absurd h1len (by simp)
    rcases List.exists_mem_of_ne_nil _ hne with ⟨r, hr⟩
    unfold matchingRows at hr
    exact List.any_eq_true.mpr ⟨r, (List.mem_filter.mp hr).1,
      (List.mem_filter.mp hr).2⟩
  have hrec2 := matchingRows_record
    (record_interaction tbl ctx user_id entity_id ety1 itype w1 m1 ts)
    ctx user_id entity_id ety2 itype w2 m2 ts
  rw [if_pos hany1] at hrec2
  constructor
  · rw [hrec2, List.length_map, h1len]
  · intro r hr
    rw [hrec2] at hr
    rcases List.mem_map.mp hr with ⟨r0, _, rfl⟩
    exact ⟨rfl, rfl⟩

/-- C6 witness: the dedup theorem applied to the empty table with two
concrete calls sharing the dedup key. -/
theorem record_interaction_dedup_witness :
    (matchingRows
        (record_interaction
          (record_interaction [] ⟨"t"⟩ "u" "e1" "product" .View 1 none 0)
          ⟨"t"⟩ "u" "e1" "product" .View 2 (some [("k", "v")]) 0)
        "t" "u" "e1" (interactionTypeStr .View) 0).length = 1 ∧
    ∀ r ∈ matchingRows
        (record_interaction
          (record_interaction [] ⟨"t"⟩ "u" "e1" "product" .View 1 none 0)
          ⟨"t"⟩ "u" "e1" "product" .View 2 (some [("k", "v")]) 0)
        "t" "u" "e1" (interactionTypeStr .View) 0,
      r.weight = 2 ∧ r.metadata = some [("k", "v")] :=
  record_interaction_dedup [] ⟨"t"⟩ "u" "e1" "product" "product" .View 1 2
    none (some [("k", "v")]) 0 (by simp [matchingRows])

/-- `recommendation_engine::CollaborativeConfig`. -/
structure CollaborativeConfig where
  k_neighbors : Nat
  min_similarity : ℚ
  default_count : Nat
  deriving Repr

/-- `CollaborativeFilteringEngine::find_similar_users`
(`crates/engine/src/collaborative.rs`, lines 57-113): absent profile is
`EntityNotFound`; empty preference vector short-circuits to `Ok([])`;
otherwise the ANN result is filtered by the similarity threshold. -/
def find_similar_users (s : Store) (cfg : CollaborativeConfig)
    (ctx : TenantContext) (user_id : String) :
    Except RecommendationError (List (ProfileRow × ℚ)) :=
  match get_user_profile s ctx user_id with
  | none => .error (.EntityNotFound
      ("User profile not found for user_id: " ++ user_id))
  | some user_profile =>
    if user_profile.preference_vector.isEmpty then .ok []
    else
      .ok ((s.annSimilarUsers ctx.tenant_id user_profile.preference_vector
        cfg.k_neighbors (some user_id)).filter
          (fun pr => decide (cfg.min_similarity ≤ pr.2)))

/-- Score accumulation into the `entity_scores` map of
`aggregate_recommendations_from_neighbors`
(`entry(key).and_modify(+=).or_insert`), as an association list in
insertion order. -/
def accumScore (acc : List (String × ℚ)) (entity_id : String) (w : ℚ) :
    List (String × ℚ) :=
  if acc.any (fun p => p.1 == entity_id) then
    acc.map (fun p => if p.1 == entity_id then (p.1, p.2 + w) else p)
  else acc ++ [(entity_id, w)]

/-- Resolution step at the end of
`aggregate_recommendations_from_neighbors`: under an `entity_type`
filter look the accumulated id up with `get_entity` and push a scored
entity; without a filter (or when the lookup fails) the candidate is
dropped. `n` is `similar_users.len().min(10)` for the reason string. -/
def resolveEntry (s : Store) (ctx : TenantContext) (n : Nat)
    (recs : List ScoredEntity) (p : String × ℚ) :
    Option String → List ScoredEntity
  | some filter_type =>
    match get_entity s ctx p.1 filter_type with
    | some entity => recs ++ [⟨entity.entity_id, entity.entity_type, p.2,
        some ("Liked by " ++ toString n ++ " similar users")⟩]
    | none => recs
  | none => recs

/-- `CollaborativeFilteringEngine::aggregate_recommendations_from_neighbors`
(`crates/engine/src/collaborative.rs`, lines 198-286): for each neighbor
take their 100 most recent interactions, skip entities in the exclusion
set, accumulate `weight × similarity` per entity id, then resolve each
id through `get_entity` under the type filter (ids drop out when the
filter is absent or the lookup fails). -/
def aggregate_recommendations_from_neighbors (s : Store) (ctx : TenantContext)
    (similar_users : List (ProfileRow × ℚ)) (exclude_entities : List String)
    (entity_type_filter : Option String) : List ScoredEntity :=
  (similar_users.foldl (fun acc pr =>
    (get_user_interactions s ctx pr.1.user_id 100 0).foldl (fun acc2 interaction =>
      if exclude_entities.contains interaction.entity_id then acc2
      else accumScore acc2 interaction.entity_id (interaction.weight * pr.2)) acc)
    []).foldl (fun recs p =>
      resolveEntry s ctx (min similar_users.length 10) recs p entity_type_filter) []

/-- `CollaborativeFilteringEngine::generate_recommendations`
(`crates/engine/src/collaborative.rs`, lines 136-194). -/
def generate_recommendations (s : Store) (cfg : CollaborativeConfig)
    (ctx : TenantContext) (user_id : String) (count : Nat)
    (entity_type : Option String) :
    Except RecommendationError (List ScoredEntity) :=
  match find_similar_users s cfg ctx user_id with
  | .error e => .error e
  | .ok similar_users =>
    if similar_users.isEmpty then .ok []
    else
      let interacted := get_user_interacted_entities s ctx user_id
      .ok ((sortByScoreDesc (aggregate_recommendations_from_neighbors s ctx
        similar_users interacted entity_type)).take count)

/-- `CollaborativeFilteringEngine::is_cold_start_user`: no profile, or
fewer than 5 interactions. -/
def is_cold_start_user (s : Store) (ctx : TenantContext) (user_id : String) :
    Bool :=
  match get_user_profile s ctx user_id with
  | some p => decide (p.interaction_count < 5)
  | none => true

/-- Per-key accumulation of `SUM(i.weight) GROUP BY entity_id,
entity_type` in `get_trending_entity_stats`. -/
def accumPair (acc : List ((String × String) × ℚ)) (row : InteractionRow) :
    List ((String × String) × ℚ) :=
  if acc.any (fun p => p.1 == (row.entity_id, row.entity_type)) then
    acc.map (fun p =>
      if p.1 == (row.entity_id, row.entity_type) then (p.1, p.2 + row.weight)
      else p)
  else acc ++ [((row.entity_id, row.entity_type), row.weight)]

/-- Descending order on summed weights (`ORDER BY total_weight DESC`). -/
def weightGe (a b : (String × String) × ℚ) : Prop := b.2 ≤ a.2

instance : DecidableRel weightGe := fun a b =>
  inferInstanceAs (Decidable (b.2 ≤ a.2))

instance : IsTotal ((String × String) × ℚ) weightGe :=
  ⟨fun a b => le_total b.2 a.2⟩

instance : IsTrans ((String × String) × ℚ) weightGe :=
  ⟨fun _ _ _ h1 h2 => le_trans h2 h1⟩

/-- `VectorStore::get_trending_entity_stats`
(`crates/storage/src/vector_store.rs`, lines 1225-1296): tenant- and
optionally type-filtered interactions of the last 7 days, summed per
`(entity_id, entity_type)`, ordered by weight descending, `LIMIT`. -/
def get_trending_entity_stats (s : Store) (ctx : TenantContext)
    (entity_type : Option String) (limit : Nat) :
    List (String × String × ℚ) :=
  let rows := s.interactions.filter (fun i =>
    i.tenant_id == ctx.tenant_id &&
    (match entity_type with
     | some t => i.entity_type == t
     | none => true) &&
    decide (s.now - 7 * 86400 ≤ i.timestamp))
  ((((rows.foldl accumPair []).insertionSort weightGe).take limit).map
    (fun p => (p.1.1, p.1.2, p.2)))

/-- The cache key built inside
`CollaborativeFilteringEngine::get_trending_entities`
(`crates/engine/src/collaborative.rs`, line 326):
`format!("trending:{}:{}", entity_type.unwrap_or("all"), count)` — the
tenant does not appear. -/
def engineTrendingCacheKey (entity_type : Option String) (count : Nat) :
    String :=
  "trending:" ++ entity_type.getD "all" ++ ":" ++ toString count

/-- The cache key built inside
`RecommendationService::get_trending_entities`
(`crates/service/src/recommendation.rs`, lines 337-342):
`format!("trending:{}:{}:{}", ctx.tenant_id, entity_type.unwrap_or("all"),
count)`. -/
def serviceTrendingCacheKey (ctx : TenantContext) (entity_type : Option String)
    (count : Nat) : String :=
  "trending:" ++ ctx.tenant_id ++ ":" ++ entity_type.getD "all" ++ ":" ++
    toString count

/-- The max-normalization pass of `get_trending_entities`: if a maximum
score exists and is positive, divide every score by it. -/
def normalizeTrendingByMax (trending : List ScoredEntity) : List ScoredEntity :=
  match trending with
  | [] => []
  | e :: es =>
    if 0 < maxScore (e :: es) then
      (e :: es).map (fun x => { x with score := x.score / maxScore (e :: es) })
    else e :: es

/-- `CollaborativeFilteringEngine::get_trending_entities`
(`crates/engine/src/collaborative.rs`, lines 314-374): consult the cache
under the tenant-less key, else aggregate from the store, normalize by
the maximum, cache for an hour, and return. -/
def get_trending_entities (s : Store) (cache : Cache) (ctx : TenantContext)
    (entity_type : Option String) (count : Nat) :
    List ScoredEntity × Cache :=
  match cacheGet cache (engineTrendingCacheKey entity_type count) with
  | some cached => (cached, cache)
  | none =>
    let trending := normalizeTrendingByMax
      ((get_trending_entity_stats s ctx entity_type count).map
        (fun r => ScoredEntity.mk r.1 r.2.1 r.2.2 (some "Trending")))
    (trending, cacheSet cache (engineTrendingCacheKey entity_type count) trending)

/-- `CollaborativeFilteringEngine::get_recommendations_with_cold_start`
(`crates/engine/src/collaborative.rs`, lines 378-433): cold-start users
receive the trending list; otherwise personalized recommendations,
backfilled from trending (skipping ids already present) when fewer than
`count` were generated. -/
def get_recommendations_with_cold_start (s : Store) (cfg : CollaborativeConfig)
    (cache : Cache) (ctx : TenantContext) (user_id : String) (count : Nat)
    (entity_type : Option String) :
    Except RecommendationError ((List ScoredEntity × Bool) × Cache) :=
  if is_cold_start_user s ctx user_id then
    let tc := get_trending_entities s cache ctx entity_type count
    .ok ((tc.1, true), tc.2)
  else
    match generate_recommendations s cfg ctx user_id count entity_type with
    | .error e => .error e
    | .ok recommendations =>
      if recommendations.length < count then
        let tc := get_trending_entities s cache ctx entity_type
          (count - recommendations.length)
        let existing_ids := recommendations.map (·.entity_id)
        .ok ((tc.1.foldl (fun acc e =>
          if !(existing_ids.contains e.entity_id) && decide (acc.length < count)
          then acc ++ [e] else acc) recommendations, false), tc.2)
      else .ok ((recommendations, false), cache)

/-- C2 counterexample: for a user with no stored profile,
`generate_recommendations` returns an `EntityNotFound` error rather than
the empty list the claim requires. -/
theorem generate_recommendations_no_profile_counterexample :
    generate_recommendations ⟨0, [], [], [], fun _ _ _ _ => []⟩
        ⟨50, 1/10, 10⟩ ⟨"t"⟩ "u" 10 none =
      .error (.EntityNotFound "User profile not found for user_id: u") ∧
    generate_recommendations ⟨0, [], [], [], fun _ _ _ _ => []⟩
        ⟨50, 1/10, 10⟩ ⟨"t"⟩ "u" 10 none ≠ .ok [] := by
  have h : generate_recommendations ⟨0, [], [], [], fun _ _ _ _ => []⟩
      ⟨50, 1/10, 10⟩ ⟨"t"⟩ "u" 10 none =
      .error (.EntityNotFound "User profile not found for user_id: u") := rfl
  exact ⟨h, by rw [h]; simp⟩

/-- C2 (amended): when the stored profile's preference vector is empty
`generate_recommendations` returns `Ok([])`; when no profile is stored
for the user it returns an `EntityNotFound` error (the cold-start
wrapper, not this function, handles that case). -/
theorem generate_recommendations_absent_vector (s : Store)
    (cfg : CollaborativeConfig) (ctx : TenantContext) (user_id : String)
    (count : Nat) (entity_type : Option String) :
    (∀ p : ProfileRow, get_user_profile s ctx user_id = some p →
      p.preference_vector = [] →
      generate_recommendations s cfg ctx user_id count entity_type = .ok []) ∧
    (get_user_profile s ctx user_id = none →
      generate_recommendations s cfg ctx user_id count entity_type =
        .error (.EntityNotFound
          ("User profile not found for user_id: " ++ user_id))) := by
  constructor
  · intro p hp hv
    simp [generate_recommendations, find_similar_users, hp, hv]
  · intro hp
    simp [generate_recommendations, find_similar_users, hp]

/-- C2 witness: the empty-vector branch applied to a store holding a
profile with an empty preference vector. -/
theorem generate_recommendations_absent_vector_witness :
    get_user_profile ⟨0, [⟨"t", "u", [], 0⟩], [], [], fun _ _ _ _ => []⟩
      ⟨"t"⟩ "u" = some ⟨"t", "u", [], 0⟩ ∧
    generate_recommendations ⟨0, [⟨"t", "u", [], 0⟩], [], [], fun _ _ _ _ => []⟩
      ⟨50, 1/10, 10⟩ ⟨"t"⟩ "u" 10 none = .ok [] :=
  ⟨rfl, (generate_recommendations_absent_vector
    ⟨0, [⟨"t", "u", [], 0⟩], [], [], fun _ _ _ _ => []⟩
    ⟨50, 1/10, 10⟩ ⟨"t"⟩ "u" 10 none).1 ⟨"t", "u", [], 0⟩ rfl rfl⟩

theorem foldl_preserve_mem {α β : Type} (P : α → Prop) (Q : β → Prop)
    (f : List α → β → List α)
    (hf : ∀ acc b, Q b → (∀ x ∈ acc, P x) → ∀ x ∈ f acc b, P x) :
    ∀ (l : List β), (∀ b ∈ l, Q b) → ∀ (init : List α),
      (∀ x ∈ init, P x) → ∀ x ∈ l.foldl f init, P x := by
  intro l
  induction l with
  | nil =>
    intro _ init h
    simpa using h
  | cons b bs ih =>
    intro hQ init h
    simp only [List.foldl_cons]
    exact ih (fun x hx => hQ x (List.mem_cons_of_mem b hx)) (f init b)
      (hf init b (hQ b (List.mem_cons_self b bs)) h)

theorem accumScore_mem (acc : List (String × ℚ)) (id : String) (w : ℚ) :
    ∀ p ∈ accumScore acc id w, p.1 = id ∨ ∃ q ∈ acc, p.1 = q.1 := by
  intro p hp
  rw [accumScore] at hp
  split_ifs at hp with h
  · rcases List.mem_map.mp hp with ⟨q, hq, rfl⟩
    by_cases hqid : (q.1 == id) = true
    · rw [if_pos hqid]
      exact Or.inr ⟨q, hq, rfl⟩
    · rw [if_neg hqid]
      exact Or.inr ⟨q, hq, rfl⟩
  · rcases List.mem_append.mp hp with h | h
    · exact Or.inr ⟨p, h, rfl⟩
    · rcases List.mem_singleton.mp h with rfl
      exact Or.inl rfl

theorem get_entity_entity_id {s : Store} {ctx : TenantContext}
    {entity_id entity_type : String} {ent : EntityRow}
    (h : get_entity s ctx entity_id entity_type = some ent) :
    ent.entity_id = entity_id := by
  have hp := List.find?_some h
  simp only [Bool.and_eq_true, beq_iff_eq] at hp
  exact hp.1.2

theorem entity_scores_exclude (s : Store) (ctx : TenantContext)
    (exclude : List String) (similar_users : List (ProfileRow × ℚ)) :
    ∀ p ∈ similar_users.foldl (fun acc pr =>
      (get_user_interactions s ctx pr.1.user_id 100 0).foldl
        (fun acc2 interaction =>
          if exclude.contains interaction.entity_id then acc2
          else accumScore acc2 interaction.entity_id
            (interaction.weight * pr.2)) acc) [],
      exclude.contains p.1 = false := by
  refine foldl_preserve_mem _ (fun _ => True) _ ?_ similar_users
    (fun _ _ => trivial) [] (by simp)
  intro acc pr _ hinv
  refine foldl_preserve_mem _ (fun _ => True) _ ?_
    (get_user_interactions s ctx pr.1.user_id 100 0) (fun _ _ => trivial) acc hinv
  intro acc2 interaction _ hinv2 x hx
  by_cases hc : exclude.contains interaction.entity_id = true
  · rw [if_pos hc] at hx
    exact hinv2 x hx
  · rw [if_neg hc] at hx
    rcases accumScore_mem acc2 interaction.entity_id
      (interaction.weight * pr.2) x hx with h | ⟨q, hq, hxq⟩
    · rw [h]
      exact Bool.eq_false_iff.mpr hc
    · rw [hxq]
      exact hinv2 q hq

theorem aggregate_excludes (s : Store) (ctx : TenantContext)
    (similar_users : List (ProfileRow × ℚ)) (exclude : List String)
    (entity_type_filter : Option String) :
    ∀ e ∈ aggregate_recommendations_from_neighbors s ctx similar_users
      exclude entity_type_filter,
      exclude.contains e.entity_id = false := by
  intro e he
  rw [aggregate_recommendations_from_neighbors] at he
  refine foldl_preserve_mem
    (fun e : ScoredEntity => exclude.contains e.entity_id = false)
    (fun p : String × ℚ => exclude.contains p.1 = false) _ ?_ _
    (entity_scores_exclude s ctx exclude similar_users) [] (by simp) e he
  intro recs p hQ hinv x hx
  cases entity_type_filter with
  | none =>
    rw [resolveEntry] at hx
    exact hinv x hx
  | some filter_type =>
    rw [resolveEntry] at hx
    cases hge : get_entity s ctx p.1 filter_type with
    | none =>
      rw [hge] at hx
      exact hinv x hx
    | some entity =>
      rw [hge] at hx
      rcases List.mem_append.mp hx with h | h
      · exact hinv x h
      · rcases List.mem_singleton.mp h with rfl
        simpa [get_entity_entity_id hge] using hQ

/-- C3 (amended): every personalized recommendation produced by
`generate_recommendations` lies outside the requesting user's historic
interaction set; the cold-start trending fallback and the trending
backfill do NOT filter against that set (see the counterexample), only
against ids already present in the personalized list. -/
theorem generate_recommendations_excludes_interacted (s : Store)
    (cfg : CollaborativeConfig) (ctx : TenantContext) (user_id : String)
    (count : Nat) (entity_type : Option String) (recs : List ScoredEntity)
    (h : generate_recommendations s cfg ctx user_id count entity_type =
      .ok recs) :
    ∀ e ∈ recs, e.entity_id ∉ get_user_interacted_entities s ctx user_id := by
  intro e he
  rw [generate_recommendations] at h
  match hfsu : find_similar_users s cfg ctx user_id with
  | .error err =>
    rw [hfsu] at h
    cases h
  | .ok similar_users =>
    rw [hfsu] at h
    dsimp only at h
    split_ifs at h with hempty
    · injection h with h2
      subst h2
      cases he
    · injection h with h2
      subst h2
      have he2 : e ∈ sortByScoreDesc
          (aggregate_recommendations_from_neighbors s ctx similar_users
            (get_user_interacted_entities s ctx user_id) entity_type) :=
        List.mem_of_mem_take he
      have he3 := (List.perm_insertionSort scoreGe _).mem_iff.mp he2
      have hfalse := aggregate_excludes s ctx similar_users
        (get_user_interacted_entities s ctx user_id) entity_type e he3
      simpa using hfalse

/-- Store for the C3 witness: user `u` (10 interactions, warm) has
interacted with `e1`; the similar user `v` has interacted with `e2`. -/
def witnessStore : Store :=
  ⟨0, [⟨"t", "u", [1], 10⟩, ⟨"t", "v", [1], 10⟩],
    [⟨"t", "u", "e1", "product", "view", 1, none, 0⟩,
     ⟨"t", "v", "e2", "product", "view", 3, none, 0⟩],
    [⟨"t", "e2", "product"⟩],
    fun _ _ _ _ => [(⟨"t", "v", [1], 10⟩, 1/2)]⟩

/-- C3 witness: the exclusion theorem applied to a concrete store in
which the personalized result is the neighbor's entity `e2`, while the
user's own `e1` stays excluded. -/
theorem generate_recommendations_excludes_interacted_witness :
    generate_recommendations witnessStore ⟨50, 1/10, 10⟩ ⟨"t"⟩ "u" 5
      (some "product") =
      .ok [⟨"e2", "product", 3/2, some "Liked by 1 similar users"⟩] ∧
    (⟨"e2", "product", 3/2, some "Liked by 1 similar users"⟩ :
      ScoredEntity).entity_id ∉
      get_user_interacted_entities witnessStore ⟨"t"⟩ "u" := by
  have h2 : find_similar_users witnessStore ⟨50, 1/10, 10⟩ ⟨"t"⟩ "u" =
      .ok [(⟨"t", "v", [1], 10⟩, 1/2)] := by
    norm_num [find_similar_users, get_user_profile, witnessStore, List.find?,
      List.filter]
  have h5 : aggregate_recommendations_from_neighbors witnessStore ⟨"t"⟩
      [(⟨"t", "v", [1], 10⟩, 1/2)] ["e1"] (some "product") =
      [⟨"e2", "product", 3/2, some "Liked by 1 similar users"⟩] := by
    norm_num [aggregate_recommendations_from_neighbors, get_user_interactions,
      accumScore, resolveEntry, get_entity, witnessStore, List.find?,
      List.filter, List.insertionSort, List.orderedInsert]
    simp
    decide
  have h : generate_recommendations witnessStore ⟨50, 1/10, 10⟩ ⟨"t"⟩ "u" 5
      (some "product") =
      .ok [⟨"e2", "product", 3/2, some "Liked by 1 similar users"⟩] := by
    rw [generate_recommendations, h2]
    dsimp only
    rw [show get_user_interacted_entities witnessStore ⟨"t"⟩ "u" = ["e1"] from rfl,
      h5]
    simp [sortByScoreDesc, List.insertionSort, List.orderedInsert]
  exact ⟨h, generate_recommendations_excludes_interacted witnessStore
    ⟨50, 1/10, 10⟩ ⟨"t"⟩ "u" 5 (some "product") _ h _
    (List.mem_singleton_self _)⟩

/-- Store for the C3 counterexample: `u` has only 3 interactions (cold
start) and has interacted with `e1`, the sole trending entity. -/
def coldStartStore : Store :=
  ⟨0, [⟨"t", "u", [1], 3⟩],
    [⟨"t", "u", "e1", "product", "view", 5, none, 0⟩],
    [⟨"t", "e1", "product"⟩], fun _ _ _ _ => []⟩

/-- C3 counterexample: the cold-start trending fallback returns `e1`
even though `e1` is in the requesting user's historic interaction set,
so the claim's exclusion does not extend to the fallback. -/
theorem cold_start_returns_interacted :
    get_recommendations_with_cold_start coldStartStore ⟨50, 1/10, 10⟩ []
        ⟨"t"⟩ "u" 10 none =
      .ok (([⟨"e1", "product", 1, some "Trending"⟩], true),
        [("trending:all:10", [⟨"e1", "product", 1, some "Trending"⟩])]) ∧
    "e1" ∈ get_user_interacted_entities coldStartStore ⟨"t"⟩ "u" := by
  constructor
  · have hstats : get_trending_entity_stats coldStartStore ⟨"t"⟩ none 10 =
        [("e1", "product", 5)] := by
      norm_num [get_trending_entity_stats, coldStartStore, accumPair,
        List.filter, List.insertionSort, List.orderedInsert]
    have htrend : get_trending_entities coldStartStore [] ⟨"t"⟩ none 10 =
        ([⟨"e1", "product", 1, some "Trending"⟩],
          [("trending:all:10", [⟨"e1", "product", 1, some "Trending"⟩])]) := by
      rw [get_trending_entities, show cacheGet [] (engineTrendingCacheKey none 10) =
        none from rfl, hstats]
      norm_num [normalizeTrendingByMax, maxScore, cacheSet, cacheGet,
        engineTrendingCacheKey, List.filter]
      decide
    rw [get_recommendations_with_cold_start,
      if_pos (show is_cold_start_user coldStartStore ⟨"t"⟩ "u" = true from rfl),
      htrend]
  · decide

/-- C1: the collaborative engine's trending cache key
(`collaborative.rs` line 326) contains no tenant component, so after
tenant `a` populates the cache, the identical read for a distinct tenant
`b` is served tenant `a`'s cached list even though tenant `b`'s own data
yields no trending entities; the service-level key
(`recommendation.rs` lines 337-342) does embed the tenant. -/
theorem trending_cache_cross_tenant :
    engineTrendingCacheKey none 1 = "trending:all:1" ∧
    serviceTrendingCacheKey ⟨"a"⟩ none 1 ≠ serviceTrendingCacheKey ⟨"b"⟩ none 1 ∧
    (get_trending_entities ⟨0, [], [⟨"a", "u1", "ea", "product", "view", 1, none, 0⟩],
        [], fun _ _ _ _ => []⟩ [] ⟨"a"⟩ none 1).1 =
      [⟨"ea", "product", 1, some "Trending"⟩] ∧
    (get_trending_entities ⟨0, [], [⟨"a", "u1", "ea", "product", "view", 1, none, 0⟩],
        [], fun _ _ _ _ => []⟩
      (get_trending_entities ⟨0, [], [⟨"a", "u1", "ea", "product", "view", 1, none, 0⟩],
        [], fun _ _ _ _ => []⟩ [] ⟨"a"⟩ none 1).2 ⟨"b"⟩ none 1).1 =
      [⟨"ea", "product", 1, some "Trending"⟩] ∧
    get_trending_entity_stats ⟨0, [], [⟨"a", "u1", "ea", "product", "view", 1, none, 0⟩],
      [], fun _ _ _ _ => []⟩ ⟨"b"⟩ none 1 = [] := by
  have hstats : get_trending_entity_stats
      ⟨0, [], [⟨"a", "u1", "ea", "product", "view", 1, none, 0⟩],
        [], fun _ _ _ _ => []⟩ ⟨"a"⟩ none 1 = [("ea", "product", 1)] := by
    norm_num [get_trending_entity_stats, accumPair, List.filter,
      List.insertionSort, List.orderedInsert]
  have ha : get_trending_entities
      ⟨0, [], [⟨"a", "u1", "ea", "product", "view", 1, none, 0⟩],
        [], fun _ _ _ _ => []⟩ [] ⟨"a"⟩ none 1 =
      ([⟨"ea", "product", 1, some "Trending"⟩],
        [("trending:all:1", [⟨"ea", "product", 1, some "Trending"⟩])]) := by
    rw [get_trending_entities, show cacheGet [] (engineTrendingCacheKey none 1) =
      none from rfl, hstats]
    norm_num [normalizeTrendingByMax, maxScore, cacheSet, cacheGet,
      engineTrendingCacheKey, List.filter]
    decide
  refine ⟨by decide, by decide, by rw [ha], ?_, by decide⟩
  rw [ha, get_trending_entities,
    show cacheGet [("trending:all:1", [⟨"ea", "product", 1, some "Trending"⟩])]
      (engineTrendingCacheKey none 1) =
      some [⟨"ea", "product", 1, some "Trending"⟩] from rfl]

end RecEngine
